import Mathlib

/-!
Verification of the transcription service (`backend/main.py`, `backend/transcriber.py`).

The embedding models the filesystem as the set (list) of paths that currently
exist, and the two external collaborators — the speech model and the media
extraction tool — as an oracle environment `Env` whose outcomes are arbitrary.
Each worker operation returns its result together with the final filesystem
and a record of the collaborator calls it made, so that resource-cleanup,
configuration and error-mapping properties can be stated about it.
-/

/-- The filesystem, modelled as the list of paths that exist. -/
abbrev FS : Type := List String

/-- Python `os.path.join(dir, name)` for a directory path with no trailing slash. -/
def joinPath (dir name : String) : String := dir ++ "/" ++ name

/-- Boolean test that `needle` is an initial segment of `hay` (over characters). -/
def isPreL : List Char → List Char → Bool
  | [], _ => true
  | _ :: _, [] => false
  | a :: as, b :: bs => a == b && isPreL as bs

/-- Boolean substring containment over character lists, as in Python `needle in hay`. -/
def containsL : List Char → List Char → Bool
  | [], needle => needle.isEmpty
  | c :: t, needle => isPreL needle (c :: t) || containsL t needle

/-- Python substring test `needle in hay` on strings. -/
def strContains (hay needle : String) : Bool := containsL hay.data needle.data

/-- Whether path `p` lies strictly inside directory `dir`. -/
def underDir (dir p : String) : Bool := isPreL (dir ++ "/").data p.data

/-- Effect of `os.unlink(path)` on the filesystem. -/
def removeFile (path : String) (fs : FS) : FS :=
  List.filter (fun q => !(q == path)) fs

/-- Effect of removing a temporary directory and its whole tree on scope exit,
as `tempfile.TemporaryDirectory.__exit__` does. -/
def removeTree (dir : String) (fs : FS) : FS :=
  List.filter (fun q => !(q == dir || underDir dir q)) fs

/-- An uploaded file: `fastapi.UploadFile`, reduced to its name and raw bytes. -/
structure UploadFile where
  filename : String
  content : List Nat
deriving DecidableEq

/-- The dictionary returned by `model.transcribe`: the `"text"` entry plus the
other entries the caller never reads. -/
structure WhisperResult where
  text : String
  segments : List String
  language : String
deriving DecidableEq

/-- One invocation of `model.transcribe(file_path, fp16=...)`. -/
structure TranscribeCall where
  file_path : String
  fp16 : Bool
deriving DecidableEq

/-- One entry of the `postprocessors` list in the `yt_dlp` options dict. -/
structure Postprocessor where
  key : String
  preferredcodec : String
  preferredquality : String
deriving DecidableEq

/-- The `ydl_opts` dictionary handed to `yt_dlp.YoutubeDL`. -/
structure YdlOpts where
  format : String
  postprocessors : List Postprocessor
  outtmpl : String
  quiet : Bool
deriving DecidableEq

/-- One invocation of `ydl.download(urls)` under a given options dict. -/
structure DownloadCall where
  opts : YdlOpts
  urls : List String
deriving DecidableEq

/-- Oracle environment for the external collaborators and `tempfile`:
fresh-name generation, the extraction tool (which either raises, or returns
the names of the files it created inside the output directory designated by
`outtmpl`), and the speech model (which either raises or returns its result
dictionary). Exceptions are modelled by their `str()` message. -/
structure Env where
  fresh_temp_dir : FS → String
  fresh_temp_file : FS → String
  ydl_download : YdlOpts → List String → Except String (List String)
  model_transcribe : String → Bool → Except String WhisperResult

/-- Outcome of one worker operation: its return value or escaping exception,
the final filesystem, and the collaborator calls that were made. -/
structure RunResult where
  result : Except String String
  fs : FS
  downloads : List DownloadCall
  transcriptions : List TranscribeCall

/-- `transcriber.transcribe_audio`: runs the model on the path with
`fp16=False` and returns `result["text"]`; also reports the call made. -/
def transcribe_audio (env : Env) (file_path : String) :
    Except String String × TranscribeCall :=
  let result := env.model_transcribe file_path false
  (Except.map (fun r => r.text) result, { file_path := file_path, fp16 := false })

/-- The `ydl_opts` dictionary built in `transcriber.process_youtube_url` for a
given temporary directory. -/
def ydl_opts_for (temp_dir : String) : YdlOpts :=
  { format := "bestaudio/best",
    postprocessors :=
      [{ key := "FFmpegExtractAudio", preferredcodec := "mp3", preferredquality := "192" }],
    outtmpl := joinPath temp_dir "audio.%(ext)s",
    quiet := false }

/-- `transcriber.process_youtube_url`: inside a scoped temporary directory,
invoke the extraction tool, check that `audio.mp3` exists, transcribe it; the
directory tree is removed on every exit path of the `with` block. Files the
tool creates are placed inside the temporary directory, as its `outtmpl`
directs. -/
def process_youtube_url (env : Env) (fs : FS) (url : String) : RunResult :=
  let temp_dir := env.fresh_temp_dir fs
  let fs1 : FS := temp_dir :: fs
  let opts := ydl_opts_for temp_dir
  let dcall : DownloadCall := { opts := opts, urls := [url] }
  match env.ydl_download opts [url] with
  | Except.error e =>
      { result := Except.error e, fs := removeTree temp_dir fs1,
        downloads := [dcall], transcriptions := [] }
  | Except.ok created =>
      let fs2 : FS := created.map (joinPath temp_dir) ++ fs1
      let audio_path := joinPath temp_dir "audio.mp3"
      if audio_path ∈ fs2 then
        let t := transcribe_audio env audio_path
        { result := t.1, fs := removeTree temp_dir fs2,
          downloads := [dcall], transcriptions := [t.2] }
      else
        { result := Except.error "Failed to download audio from the URL.",
          fs := removeTree temp_dir fs2, downloads := [dcall], transcriptions := [] }

/-- `transcriber.process_audio_file`: write the upload to a named temporary
file, transcribe it, and `os.unlink` the file in a `finally` block, so the
unlink happens whether transcription returns or raises. -/
def process_audio_file (env : Env) (fs : FS) (file : UploadFile) : RunResult :=
  let temp_file_path := env.fresh_temp_file fs
  let fs1 : FS := temp_file_path :: fs
  let t := transcribe_audio env temp_file_path
  { result := t.1, fs := removeFile temp_file_path fs1,
    downloads := [], transcriptions := [t.2] }

/-- A value of the `audio_file` form field: omitted, a string (what some
clients send instead of omitting the field), or an actual upload. -/
inductive FileField where
  | absent
  | str (s : String)
  | upload (f : UploadFile)
deriving DecidableEq

/-- The dict returned by the validator dependency. -/
structure ValidatedInputs where
  youtube_url : Option String
  audio_file : Option UploadFile
deriving DecidableEq

/-- A raised `fastapi.HTTPException`. -/
structure HTTPException where
  status_code : Nat
  detail : String
deriving DecidableEq

/-- Python truthiness of an optional string: `None` and `""` are falsy. -/
def truthyStr : Option String → Bool
  | Option.none => false
  | some s => !(s == "")

/-- Python truthiness of an optional `UploadFile`: the object is always truthy. -/
def truthyFile : Option UploadFile → Bool
  | Option.none => false
  | some _ => true

/-- Detail string of the 422 raised when neither input is given. -/
def missingInputDetail : String :=
  "You must provide either a \x27youtube_url\x27 or an \x27audio_file\x27."

/-- Detail string of the 422 raised when both inputs are given. -/
def bothInputsDetail : String :=
  "Please provide either a \x27youtube_url\x27 or an \x27audio_file\x27, not both."

/-- `main.validate_and_process_inputs`: coerce a string-valued `audio_file` to
`None`, then reject if neither or both fields are truthy. -/
def validate_and_process_inputs (youtube_url : Option String)
    (audio_file : FileField) : Except HTTPException ValidatedInputs :=
  let audio_file2 : Option UploadFile :=
    match audio_file with
    | FileField.absent => Option.none
    | FileField.str _ => Option.none
    | FileField.upload f => some f
  let has_url := truthyStr youtube_url
  let has_file := truthyFile audio_file2
  if !has_url && !has_file then
    Except.error { status_code := 422, detail := missingInputDetail }
  else if has_url && has_file then
    Except.error { status_code := 422, detail := bothInputsDetail }
  else
    Except.ok { youtube_url := youtube_url, audio_file := audio_file2 }

/-- The worker call chosen by `transcribe_endpoint` from the validated inputs:
the URL branch when the URL is truthy, otherwise the file branch. -/
def worker_dispatch (env : Env) (fs : FS) (inputs : ValidatedInputs) : RunResult :=
  if truthyStr inputs.youtube_url then
    process_youtube_url env fs (inputs.youtube_url.getD "")
  else
    process_audio_file env fs (inputs.audio_file.getD { filename := "", content := [] })

/-- The HTTP response as observed by the client, together with the final
filesystem and the collaborator calls of the request. -/
structure EndpointResult where
  status : Nat
  body : String
  fs : FS
  downloads : List DownloadCall
  transcriptions : List TranscribeCall
deriving DecidableEq

/-- The `except Exception` block of `main.transcribe_endpoint`: a successful
worker run yields 200 with the transcript; an escaping exception is remapped
to 400 when its message contains either download-failure indicator, and to
500 carrying the original message otherwise. -/
def respond (run : RunResult) : EndpointResult :=
  match run.result with
  | Except.ok transcript =>
      { status := 200, body := transcript, fs := run.fs,
        downloads := run.downloads, transcriptions := run.transcriptions }
  | Except.error msg =>
      if strContains msg "HTTP Error 403" || strContains msg "unable to download" then
        { status := 400,
          body := "Failed to download audio from the provided YouTube URL. The video may be private or protected.",
          fs := run.fs, downloads := run.downloads, transcriptions := run.transcriptions }
      else
        { status := 500,
          body := "An unexpected error occurred during transcription: " ++ msg,
          fs := run.fs, downloads := run.downloads, transcriptions := run.transcriptions }

/-- `main.transcribe_endpoint`: run the validator dependency; a validation
failure is returned as-is and no worker runs; otherwise dispatch to the worker
and translate its outcome. -/
def transcribe_endpoint (env : Env) (fs : FS) (youtube_url : Option String)
    (audio_file : FileField) : EndpointResult :=
  match validate_and_process_inputs youtube_url audio_file with
  | Except.error e =>
      { status := e.status_code, body := e.detail, fs := fs,
        downloads := [], transcriptions := [] }
  | Except.ok inputs => respond (worker_dispatch env fs inputs)

/-- The placeholder substituted by the extraction tool in its output template. -/
def replaceMarker : List Char → List Char → List Char
  | [], _ => []
  | c :: t, ext =>
      if isPreL "%(ext)s".data (c :: t) then ext ++ List.drop 6 t
      else c :: replaceMarker t ext

/-- Rendering of the extraction tool's output template: the first occurrence
of the extension placeholder is replaced by the produced extension. Modelled
from the collaborator interface: the tool writes its output at the template
path with the placeholder replaced. -/
def renderOuttmpl (tmpl ext : String) : String :=
  String.mk (replaceMarker tmpl.data ext.data)

/-- Concrete sample upload used to instantiate theorems. -/
def fileW : UploadFile := { filename := "sample.mp3", content := [82, 73, 70, 70] }

/-- Environment in which both collaborators succeed. -/
def envOk : Env :=
  { fresh_temp_dir := fun _ => "/tmp/ytdl",
    fresh_temp_file := fun _ => "/tmp/upload.tmp",
    ydl_download := fun _ _ => Except.ok ["audio.mp3"],
    model_transcribe := fun _ _ =>
      Except.ok { text := "hello world", segments := [], language := "en" } }

/-- Environment in which the extraction tool finishes without raising but
creates no file at all. -/
def envNoOutput : Env := { envOk with ydl_download := fun _ _ => Except.ok [] }

/-- Environment in which the model raises an exception whose message carries
the 403 indicator. -/
def envForbidden : Env :=
  { envOk with model_transcribe := fun _ _ => Except.error "HTTP Error 403: Forbidden" }

/-- Environment in which the model raises an exception with an unrelated
message. -/
def envBoom : Env :=
  { envOk with model_transcribe := fun _ _ => Except.error "whisper exploded" }

lemma isPreL_refl (l : List Char) : isPreL l l = true := by
  induction l with
  | nil => rfl
  | cons a t ih => simp [isPreL, ih]

lemma isPreL_append (l m : List Char) : isPreL l (l ++ m) = true := by
  induction l with
  | nil => rfl
  | cons a t ih => simp [isPreL, ih]

lemma containsL_self (m : List Char) : containsL m m = true := by
  cases m with
  | nil => rfl
  | cons c t => simp [containsL, isPreL_refl]

lemma containsL_append_right (a m : List Char) : containsL (a ++ m) m = true := by
  induction a with
  | nil => simpa using containsL_self m
  | cons c t ih => simp [containsL, ih]

lemma strContains_append_right (a m : String) : strContains (a ++ m) m = true := by
  rw [strContains, String.data_append]
  exact containsL_append_right a.data m.data

lemma underDir_joinPath (d n : String) : underDir d (joinPath d n) = true := by
  show isPreL (d ++ "/").data ((d ++ "/") ++ n).data = true
  rw [String.data_append]
  exact isPreL_append _ _

lemma joinPath_inj {d a b : String} (h : joinPath d a = joinPath d b) : a = b := by
  have h1 := congrArg String.data h
  simp only [joinPath, String.data_append] at h1
  have h3 := List.append_cancel_left h1
  cases a
  cases b
  exact congrArg String.mk h3

lemma joinPath_ne (d n : String) : joinPath d n ≠ d := by
  intro h
  have hlen := congrArg String.length h
  simp only [joinPath, String.length_append] at hlen
  have h1 : String.length "/" = 1 := rfl
  rw [h1] at hlen
  omega

lemma removeFile_fresh (p : String) (fs : FS) (h : p ∉ fs) :
    removeFile p (p :: fs) = fs := by
  rw [removeFile, List.filter_cons]
  simp only [beq_self_eq_true, Bool.not_true, Bool.false_eq_true, if_false]
  refine List.filter_eq_self.mpr ?_
  intro q hq
  have hne : q ≠ p := fun e => h (e ▸ hq)
  simp [hne]

lemma removeTree_restore (d : String) (fs : FS) (created : List String)
    (h1 : d ∉ fs) (h2 : ∀ q ∈ fs, underDir d q = false) :
    removeTree d (created.map (joinPath d) ++ (d :: fs)) = fs := by
  rw [removeTree, List.filter_append]
  have hmap : List.filter (fun q => !(q == d || underDir d q))
      (created.map (joinPath d)) = [] := by
    induction created with
    | nil => rfl
    | cons n t ih =>
        rw [List.map_cons, List.filter_cons]
        simp only [underDir_joinPath, Bool.or_true, Bool.not_true, Bool.false_eq_true, if_false]
        exact ih
  have hrest : List.filter (fun q => !(q == d || underDir d q)) (d :: fs) = fs := by
    rw [List.filter_cons]
    simp only [beq_self_eq_true, Bool.true_or, Bool.not_true, Bool.false_eq_true, if_false]
    refine List.filter_eq_self.mpr ?_
    intro q hq
    have hne : q ≠ d := fun e => h1 (e ▸ hq)
    simp [hne, h2 q hq]
  rw [hmap, hrest, List.nil_append]

lemma endpoint_of_valid {env : Env} {fs : FS} {youtube_url : Option String}
    {audio_file : FileField} {inputs : ValidatedInputs}
    (h : validate_and_process_inputs youtube_url audio_file = Except.ok inputs) :
    transcribe_endpoint env fs youtube_url audio_file =
      respond (worker_dispatch env fs inputs) := by
  unfold transcribe_endpoint
  rw [h]

lemma endpoint_of_invalid {env : Env} {fs : FS} {youtube_url : Option String}
    {audio_file : FileField} {e : HTTPException}
    (h : validate_and_process_inputs youtube_url audio_file = Except.error e) :
    transcribe_endpoint env fs youtube_url audio_file =
      { status := e.status_code, body := e.detail, fs := fs,
        downloads := [], transcriptions := [] } := by
  unfold transcribe_endpoint
  rw [h]

lemma validate_url_only {u : String} (hu : u ≠ "") :
    validate_and_process_inputs (some u) FileField.absent =
      Except.ok { youtube_url := some u, audio_file := Option.none } := by
  have hb : (u == "") = false := beq_eq_false_iff_ne.mpr hu
  simp [validate_and_process_inputs, truthyStr, truthyFile, hb]

/-- Claim C2: a submission carrying neither a `youtube_url` nor an
`audio_file` is rejected by the validator with HTTP 422, and no transcription
work is performed: the response is independent of the collaborator
environment, the filesystem is untouched, and no download or model call is
recorded. -/
theorem c2_missing_both_inputs_422 (env : Env) (fs : FS) :
    validate_and_process_inputs Option.none FileField.absent =
      Except.error { status_code := 422, detail := missingInputDetail } ∧
    transcribe_endpoint env fs Option.none FileField.absent =
      { status := 422, body := missingInputDetail, fs := fs,
        downloads := [], transcriptions := [] } :=
  ⟨rfl, rfl⟩

/-- Claim C3: a submission carrying both a non-empty `youtube_url` and an
uploaded file is rejected by the validator with HTTP 422, and no transcription
work is performed. -/
theorem c3_conflicting_inputs_422 (env : Env) (fs : FS) (u : String)
    (file : UploadFile) (hu : u ≠ "") :
    validate_and_process_inputs (some u) (FileField.upload file) =
      Except.error { status_code := 422, detail := bothInputsDetail } ∧
    transcribe_endpoint env fs (some u) (FileField.upload file) =
      { status := 422, body := bothInputsDetail, fs := fs,
        downloads := [], transcriptions := [] } := by
  have hb : (u == "") = false := beq_eq_false_iff_ne.mpr hu
  have hval : validate_and_process_inputs (some u) (FileField.upload file) =
      Except.error { status_code := 422, detail := bothInputsDetail } := by
    simp [validate_and_process_inputs, truthyStr, truthyFile, hb]
  exact ⟨hval, endpoint_of_invalid hval⟩

/-- Witness for C3 at a concrete URL and file. -/
theorem c3_conflicting_inputs_422_witness :
    validate_and_process_inputs (some "https://youtu.be/a") (FileField.upload fileW) =
      Except.error { status_code := 422, detail := bothInputsDetail } ∧
    transcribe_endpoint envOk [] (some "https://youtu.be/a") (FileField.upload fileW) =
      { status := 422, body := bothInputsDetail, fs := [],
        downloads := [], transcriptions := [] } :=
  c3_conflicting_inputs_422 envOk [] "https://youtu.be/a" fileW (by decide)

/-- Claim C7: an `audio_file` field carrying an empty string is treated as
absent: together with a non-empty URL the request is accepted and proceeds
exactly as the URL-backed request, and with no URL it is rejected with the
missing-input 422. -/
theorem c7_empty_string_file_treated_absent (env : Env) (fs : FS) (u : String)
    (hu : u ≠ "") :
    validate_and_process_inputs (some u) (FileField.str "") =
      Except.ok { youtube_url := some u, audio_file := Option.none } ∧
    transcribe_endpoint env fs (some u) (FileField.str "") =
      respond (process_youtube_url env fs u) ∧
    transcribe_endpoint env fs Option.none (FileField.str "") =
      { status := 422, body := missingInputDetail, fs := fs,
        downloads := [], transcriptions := [] } := by
  have hb : (u == "") = false := beq_eq_false_iff_ne.mpr hu
  have hval : validate_and_process_inputs (some u) (FileField.str "") =
      Except.ok { youtube_url := some u, audio_file := Option.none } := by
    simp [validate_and_process_inputs, truthyStr, truthyFile, hb]
  refine ⟨hval, ?_, rfl⟩
  rw [endpoint_of_valid hval]
  have hdispatch : worker_dispatch env fs { youtube_url := some u, audio_file := Option.none } =
      process_youtube_url env fs u := by
    simp [worker_dispatch, truthyStr, hb]
  rw [hdispatch]

/-- Witness for C7 at a concrete URL. -/
theorem c7_empty_string_file_treated_absent_witness :
    validate_and_process_inputs (some "https://youtu.be/a") (FileField.str "") =
      Except.ok { youtube_url := some "https://youtu.be/a", audio_file := Option.none } ∧
    transcribe_endpoint envOk [] (some "https://youtu.be/a") (FileField.str "") =
      respond (process_youtube_url envOk [] "https://youtu.be/a") ∧
    transcribe_endpoint envOk [] Option.none (FileField.str "") =
      { status := 422, body := missingInputDetail, fs := [],
        downloads := [], transcriptions := [] } :=
  c7_empty_string_file_treated_absent envOk [] "https://youtu.be/a" (by decide)

/-- Claim C8: `transcribe_audio` invokes the model with the fp16 fast path
disabled (`fp16=False`) and returns exactly the `"text"` field of the model
result; on a model exception the exception propagates unchanged. -/
theorem c8_inference_fp16_disabled_returns_text (env : Env) (file_path : String) :
    transcribe_audio env file_path =
      (Except.map (fun r => r.text) (env.model_transcribe file_path false),
       { file_path := file_path, fp16 := false }) :=
  rfl

/-- Claim C10: a `youtube_url` field carrying an empty string is treated as
absent by truthiness: together with an uploaded file the request proceeds
exactly as the file-backed request, and with no file it is rejected with the
missing-input 422. -/
theorem c10_empty_url_treated_absent (env : Env) (fs : FS) (file : UploadFile) :
    validate_and_process_inputs (some "") (FileField.upload file) =
      Except.ok { youtube_url := some "", audio_file := some file } ∧
    transcribe_endpoint env fs (some "") (FileField.upload file) =
      respond (process_audio_file env fs file) ∧
    transcribe_endpoint env fs (some "") FileField.absent =
      { status := 422, body := missingInputDetail, fs := fs,
        downloads := [], transcriptions := [] } :=
  ⟨rfl, rfl, rfl⟩

/-- Claim C9: every run of the URL-backed worker performs exactly one call to
the extraction tool, configured with the best-available-audio policy, the mp3
codec at quality 192, and an output template inside the request temporary
directory whose extension placeholder renders the deterministic path
`audio.mp3`; the call carries the single request URL. -/
theorem c9_extraction_tool_configuration (env : Env) (fs : FS) (url : String) :
    (process_youtube_url env fs url).downloads =
      [{ opts := { format := "bestaudio/best",
                   postprocessors := [{ key := "FFmpegExtractAudio",
                                        preferredcodec := "mp3",
                                        preferredquality := "192" }],
                   outtmpl := joinPath (env.fresh_temp_dir fs) "audio.%(ext)s",
                   quiet := false },
         urls := [url] }] ∧
    renderOuttmpl "audio.%(ext)s" "mp3" = "audio.mp3" ∧
    joinPath (env.fresh_temp_dir fs) (renderOuttmpl "audio.%(ext)s" "mp3") =
      joinPath (env.fresh_temp_dir fs) "audio.mp3" := by
  refine ⟨?_, by decide, ?_⟩
  · simp only [process_youtube_url]
    split
    · rfl
    · split
      · rfl
      · rfl
  · have h : renderOuttmpl "audio.%(ext)s" "mp3" = "audio.mp3" := by decide
    rw [h]

lemma respond_error (run : RunResult) (msg : String)
    (h : run.result = Except.error msg) :
    respond run =
      if strContains msg "HTTP Error 403" || strContains msg "unable to download" then
        { status := 400,
          body := "Failed to download audio from the provided YouTube URL. The video may be private or protected.",
          fs := run.fs, downloads := run.downloads, transcriptions := run.transcriptions }
      else
        { status := 500,
          body := "An unexpected error occurred during transcription: " ++ msg,
          fs := run.fs, downloads := run.downloads, transcriptions := run.transcriptions } := by
  unfold respond
  rw [h]

/-- Claim C1: whether the worker returns or raises, the temporary resources of
the request are gone afterwards: the URL-backed path leaves the filesystem as
it found it (the scoped directory and everything the tool created inside it
are removed on scope exit, in every branch), and the file-backed path removes
its named temporary file even when inference raises. The hypotheses say only
that `tempfile` hands out names that do not collide with existing paths. -/
theorem c1_temp_resources_removed (env : Env) (fs : FS) (url : String)
    (file : UploadFile)
    (hfile : env.fresh_temp_file fs ∉ fs)
    (hdir : env.fresh_temp_dir fs ∉ fs)
    (hsub : ∀ q ∈ fs, underDir (env.fresh_temp_dir fs) q = false) :
    (process_youtube_url env fs url).fs = fs ∧
    (process_audio_file env fs file).fs = fs := by
  constructor
  · simp only [process_youtube_url]
    split
    · exact removeTree_restore _ fs [] hdir hsub
    · split
      · exact removeTree_restore _ fs _ hdir hsub
      · exact removeTree_restore _ fs _ hdir hsub
  · exact removeFile_fresh _ fs hfile

/-- Witness for C1: a concrete run against an empty filesystem. -/
theorem c1_temp_resources_removed_witness :
    (process_youtube_url envOk [] "https://youtu.be/b").fs = [] ∧
    (process_audio_file envOk [] fileW).fs = [] :=
  c1_temp_resources_removed envOk [] "https://youtu.be/b" fileW
    (by simp) (by simp) (by simp)

/-- Claim C5: when the worker raises, an exception whose message contains
either indicator substring is remapped to HTTP 400 with a body saying the
source may be private or protected, and any other exception is remapped to
HTTP 500 with the original message contained in the response detail. -/
theorem c5_exception_message_classification (env : Env) (fs : FS)
    (youtube_url : Option String) (audio_file : FileField)
    (inputs : ValidatedInputs) (msg : String)
    (hval : validate_and_process_inputs youtube_url audio_file = Except.ok inputs)
    (hrun : (worker_dispatch env fs inputs).result = Except.error msg) :
    ((strContains msg "HTTP Error 403" || strContains msg "unable to download") = true →
      (transcribe_endpoint env fs youtube_url audio_file).status = 400 ∧
      strContains (transcribe_endpoint env fs youtube_url audio_file).body
        "may be private or protected" = true) ∧
    ((strContains msg "HTTP Error 403" || strContains msg "unable to download") = false →
      (transcribe_endpoint env fs youtube_url audio_file).status = 500 ∧
      strContains (transcribe_endpoint env fs youtube_url audio_file).body msg = true) := by
  rw [endpoint_of_valid hval, respond_error _ msg hrun]
  constructor
  · intro hind
    rw [if_pos hind]
    refine ⟨rfl, ?_⟩
    show strContains "Failed to download audio from the provided YouTube URL. The video may be private or protected."
      "may be private or protected" = true
    decide
  · intro hind
    have hcond : ¬ ((strContains msg "HTTP Error 403" ||
        strContains msg "unable to download") = true) := by simp [hind]
    rw [if_neg hcond]
    exact ⟨rfl, strContains_append_right _ msg⟩

/-- Witness for C5: a model exception carrying the 403 indicator on a
file-backed request. -/
theorem c5_exception_message_classification_witness :
    ((strContains "HTTP Error 403: Forbidden" "HTTP Error 403" ||
        strContains "HTTP Error 403: Forbidden" "unable to download") = true →
      (transcribe_endpoint envForbidden [] Option.none (FileField.upload fileW)).status = 400 ∧
      strContains (transcribe_endpoint envForbidden [] Option.none (FileField.upload fileW)).body
        "may be private or protected" = true) ∧
    ((strContains "HTTP Error 403: Forbidden" "HTTP Error 403" ||
        strContains "HTTP Error 403: Forbidden" "unable to download") = false →
      (transcribe_endpoint envForbidden [] Option.none (FileField.upload fileW)).status = 500 ∧
      strContains (transcribe_endpoint envForbidden [] Option.none (FileField.upload fileW)).body
        "HTTP Error 403: Forbidden" = true) :=
  c5_exception_message_classification envForbidden [] Option.none
    (FileField.upload fileW) { youtube_url := Option.none, audio_file := some fileW }
    "HTTP Error 403: Forbidden" rfl rfl

/-- Counterexample to C6 as stated: on a purely file-backed request (no URL),
a model exception whose message contains the 403 indicator is remapped to
HTTP 400, not to the generic 500 the claim promises for every file-backed
exception. -/
theorem c6_counterexample_file_backed_403_gets_400 :
    (transcribe_endpoint envForbidden [] Option.none (FileField.upload fileW)).status = 400 ∧
    (transcribe_endpoint envForbidden [] Option.none (FileField.upload fileW)).status ≠ 500 := by
  decide

/-- Claim C6 as amended: on a file-backed request, an exception whose message
contains neither indicator substring is remapped to HTTP 500 carrying the
original message; the substring-based 400 remapping is applied to exceptions
from both paths, not only to URL-backed ones. -/
theorem c6_file_backed_500_without_indicators (env : Env) (fs : FS)
    (file : UploadFile) (msg : String)
    (hrun : (worker_dispatch env fs
        { youtube_url := Option.none, audio_file := some file }).result =
      Except.error msg)
    (hind : (strContains msg "HTTP Error 403" ||
        strContains msg "unable to download") = false) :
    (transcribe_endpoint env fs Option.none (FileField.upload file)).status = 500 ∧
    strContains (transcribe_endpoint env fs Option.none (FileField.upload file)).body
      msg = true := by
  have hval : validate_and_process_inputs Option.none (FileField.upload file) =
      Except.ok { youtube_url := Option.none, audio_file := some file } := rfl
  rw [endpoint_of_valid hval, respond_error _ msg hrun]
  have hcond : ¬ ((strContains msg "HTTP Error 403" ||
      strContains msg "unable to download") = true) := by simp [hind]
  rw [if_neg hcond]
  exact ⟨rfl, strContains_append_right _ msg⟩

/-- Witness for the amended C6: a model exception with an unrelated message on
a file-backed request. -/
theorem c6_file_backed_500_without_indicators_witness :
    (transcribe_endpoint envBoom [] Option.none (FileField.upload fileW)).status = 500 ∧
    strContains (transcribe_endpoint envBoom [] Option.none (FileField.upload fileW)).body
      "whisper exploded" = true :=
  c6_file_backed_500_without_indicators envBoom [] fileW "whisper exploded"
    rfl (by decide)

/-- Counterexample to C4 as stated: when the extraction tool completes without
raising but `audio.mp3` is absent, the endpoint answers 500, not the claimed
400 — the raised message "Failed to download audio from the URL." contains
neither "HTTP Error 403" nor "unable to download", so the 400 remapping does
not fire. -/
theorem c4_counterexample_missing_output_not_400 :
    (transcribe_endpoint envNoOutput [] (some "https://youtu.be/gone")
        FileField.absent).status ≠ 400 ∧
    (transcribe_endpoint envNoOutput [] (some "https://youtu.be/gone")
        FileField.absent).status = 500 := by
  decide

/-- Claim C4 as amended: for every URL-backed request in which extraction
completes but `audio.mp3` is missing from the temporary directory, the
endpoint fails with HTTP 500 whose detail carries the FileNotFoundError
message, rather than the 400 "source unavailable" signal. -/
theorem c4_missing_output_maps_500 (env : Env) (fs : FS) (url : String)
    (created : List String)
    (hurl : url ≠ "")
    (hdl : env.ydl_download (ydl_opts_for (env.fresh_temp_dir fs)) [url] =
      Except.ok created)
    (hmp3 : "audio.mp3" ∉ created)
    (hsub : ∀ q ∈ fs, underDir (env.fresh_temp_dir fs) q = false) :
    (transcribe_endpoint env fs (some url) FileField.absent).status = 500 ∧
    strContains (transcribe_endpoint env fs (some url) FileField.absent).body
      "Failed to download audio from the URL." = true := by
  have hb : (url == "") = false := beq_eq_false_iff_ne.mpr hurl
  have hval := validate_url_only hurl
  have hdispatch : worker_dispatch env fs
      { youtube_url := some url, audio_file := Option.none } =
      process_youtube_url env fs url := by
    simp [worker_dispatch, truthyStr, hb]
  have hnot : joinPath (env.fresh_temp_dir fs) "audio.mp3" ∉
      (created.map (joinPath (env.fresh_temp_dir fs)) ++
        (env.fresh_temp_dir fs) :: fs) := by
    intro hmem
    rcases List.mem_append.mp hmem with hm | hm
    · rcases List.mem_map.mp hm with ⟨n, hn, he⟩
      have hn2 : n = "audio.mp3" := joinPath_inj he
      exact hmp3 (hn2 ▸ hn)
    · rcases List.mem_cons.mp hm with he | hf
      · exact joinPath_ne _ _ he
      · have h1 := hsub _ hf
        simp [underDir_joinPath] at h1
  have hrun : (process_youtube_url env fs url).result =
      Except.error "Failed to download audio from the URL." := by
    simp only [process_youtube_url, hdl]
    rw [if_neg hnot]
  have hclass : ¬ ((strContains "Failed to download audio from the URL." "HTTP Error 403" ||
      strContains "Failed to download audio from the URL." "unable to download") = true) := by
    decide
  rw [endpoint_of_valid hval, hdispatch, respond_error _ _ hrun, if_neg hclass]
  exact ⟨rfl, strContains_append_right _ _⟩

/-- Witness for the amended C4: the extraction tool reports success but
creates nothing. -/
theorem c4_missing_output_maps_500_witness :
    (transcribe_endpoint envNoOutput [] (some "https://youtu.be/empty")
        FileField.absent).status = 500 ∧
    strContains (transcribe_endpoint envNoOutput [] (some "https://youtu.be/empty")
        FileField.absent).body "Failed to download audio from the URL." = true :=
  c4_missing_output_maps_500 envNoOutput [] "https://youtu.be/empty" []
    (by decide) rfl (by simp) (by simp)
